import Mathlib

/-!
# PrivateIncomeVerification — shallow embedding

A shallow embedding of `src/contracts/PrivateIncomeVerification.sol`
(the verification-request lifecycle and access-control state machine of
the `PrivateIncomeVerification` contract) and proofs of the spec's claims
about it.

Addresses are modelled as `Nat` (the zero address is `0`); the FHE
handle types `euint8` are modelled by the `Nat` value they wrap (the
registry never branches on these values, it only stores and copies
them, so no arithmetic semantics is needed).  `block.timestamp` and
`msg.sender` are passed to each operation explicitly.  Mappings are
total functions with the Solidity zero-value default.  `require`
failures are surfaced as a typed error (`Err`, following the spec's
error taxonomy), and each operation is translated in the source's
statement order, with no rollback on failure: a failing `require`
returns the state as mutated so far, which makes "checks happen before
any mutation" a provable property rather than one true by construction.
-/

/-- Error taxonomy of the spec (§7), onto which the contract's `require`
messages map: `"Income level must be greater than 0"`, `"Employment
duration must be greater than 0"`, `"Document hash required"`,
`"Employer hash required"`, `"Invalid authority address"` ↦
`invalidInput`; `"Not authorized"` ↦ `unauthorized`; `"Invalid
verification ID"`, `"Invalid request ID"`, out-of-range index ↦
`notFound`; `"Request not pending"` ↦ `notPending`; `"Verification not
active"` ↦ `notActive`; `"Verification expired"` ↦ `expired`. -/
inductive Err where
  | invalidInput
  | unauthorized
  | notFound
  | notPending
  | notActive
  | expired
  deriving DecidableEq, Repr

/-- `struct IncomeVerification` (contract lines 14–23). -/
structure IncomeVerification where
  encryptedIncomeLevel : Nat
  encryptedEmploymentMonths : Nat
  isVerified : Bool
  isActive : Bool
  verificationTime : Nat
  expiryTime : Nat
  employerHash : String
  verifiedUser : Nat
  deriving DecidableEq, Repr

/-- `struct VerificationRequest` (contract lines 25–32). -/
structure VerificationRequest where
  requester : Nat
  claimedIncomeLevel : Nat
  employmentDuration : Nat
  isPending : Bool
  requestTime : Nat
  documentHash : String
  deriving DecidableEq, Repr

/-- The Solidity zero value of `IncomeVerification`, returned by the
`verifications` mapping at unset keys. -/
def defaultVerification : IncomeVerification :=
  { encryptedIncomeLevel := 0
    encryptedEmploymentMonths := 0
    isVerified := false
    isActive := false
    verificationTime := 0
    expiryTime := 0
    employerHash := ""
    verifiedUser := 0 }

/-- The Solidity zero value of `VerificationRequest`, returned by the
`verificationRequests` mapping at unset keys. -/
def defaultRequest : VerificationRequest :=
  { requester := 0
    claimedIncomeLevel := 0
    employmentDuration := 0
    isPending := false
    requestTime := 0
    documentHash := "" }

/-- The contract's events (lines 41–63). -/
inductive Event where
  | verificationRequested (requestId requester timestamp : Nat)
  | incomeVerified (verificationId user timestamp : Nat) (meetsThreshold : Bool)
  | verificationExpired (verificationId user : Nat)
  | thresholdVerification (verificationId user : Nat) (qualified : Bool)
  deriving DecidableEq, Repr

/-- The contract's storage (lines 9–39) plus the emitted event log. -/
structure ContractState where
  verificationAuthority : Nat
  verificationCount : Nat
  verifications : Nat → IncomeVerification
  userVerifications : Nat → List Nat
  verificationRequests : Nat → VerificationRequest
  userRequests : Nat → List Nat
  requestCounter : Nat
  eventLog : List Event

/-- `VERIFICATION_VALIDITY_PERIOD = 365 days` (line 12), in seconds. -/
def VERIFICATION_VALIDITY_PERIOD : Nat := 365 * 24 * 60 * 60

/-- The `validVerification` modifier (lines 70–75): its three `require`s
in source order, returning the error of the first failing one. -/
def validVerificationCheck (now : Nat) (s : ContractState) (vid : Nat) : Option Err :=
  if ¬ vid < s.verificationCount then some Err.notFound
  else if ¬ (s.verifications vid).isActive then some Err.notActive
  else if ¬ now ≤ (s.verifications vid).expiryTime then some Err.expired
  else none

/-- `requestIncomeVerification` (lines 83–116): three input `require`s,
then store the new request at `requestCounter`, push it on the caller's
index, emit `VerificationRequested`, increment the counter.  The
Solidity function has no return value, so the success payload is
`Unit`. -/
def requestIncomeVerification (sender now : Nat)
    (incomeLevel employmentMonths : Nat) (documentHash : String)
    (s : ContractState) : ContractState × Except Err Unit :=
  if ¬ incomeLevel > 0 then (s, Except.error Err.invalidInput)
  else if ¬ employmentMonths > 0 then (s, Except.error Err.invalidInput)
  else if documentHash = "" then (s, Except.error Err.invalidInput)
  else
    ({ s with
        verificationRequests := fun i =>
          if i = s.requestCounter then
            { requester := sender
              claimedIncomeLevel := incomeLevel
              employmentDuration := employmentMonths
              isPending := true
              requestTime := now
              documentHash := documentHash }
          else s.verificationRequests i
        userRequests := fun u =>
          if u = sender then s.userRequests u ++ [s.requestCounter]
          else s.userRequests u
        requestCounter := s.requestCounter + 1
        eventLog := s.eventLog ++ [Event.verificationRequested s.requestCounter sender now] },
      Except.ok ())

/-- `processVerificationRequest` (lines 118–151): `onlyAuthority`, then
the three `require`s, then `isPending := false`; on approval a new
record is created at `verificationCount`, the user index extended, the
`ThresholdVerification` (from `_checkIncomeThreshold`, line 158) and
`IncomeVerified` events emitted, and the counter incremented. -/
def processVerificationRequest (sender now : Nat)
    (requestId : Nat) (employerHash : String) (isApproved : Bool)
    (s : ContractState) : ContractState × Except Err Unit :=
  if ¬ sender = s.verificationAuthority then (s, Except.error Err.unauthorized)
  else if ¬ requestId < s.requestCounter then (s, Except.error Err.notFound)
  else if ¬ (s.verificationRequests requestId).isPending then (s, Except.error Err.notPending)
  else if employerHash = "" then (s, Except.error Err.invalidInput)
  else
    let req := s.verificationRequests requestId
    let s1 := { s with
      verificationRequests := fun i =>
        if i = requestId then { req with isPending := false }
        else s.verificationRequests i }
    if isApproved then
      ({ s1 with
          verifications := fun i =>
            if i = s.verificationCount then
              { encryptedIncomeLevel := req.claimedIncomeLevel
                encryptedEmploymentMonths := req.employmentDuration
                isVerified := true
                isActive := true
                verificationTime := now
                expiryTime := now + VERIFICATION_VALIDITY_PERIOD
                employerHash := employerHash
                verifiedUser := req.requester }
            else s1.verifications i
          userVerifications := fun u =>
            if u = req.requester then s.userVerifications u ++ [s.verificationCount]
            else s.userVerifications u
          verificationCount := s.verificationCount + 1
          eventLog := s1.eventLog
            ++ [Event.thresholdVerification s.verificationCount req.requester true,
                Event.incomeVerified s.verificationCount req.requester now true] },
        Except.ok ())
    else (s1, Except.ok ())

/-- `verifyIncomeThreshold` (lines 161–170): `validVerification`
modifier, then the owner-or-authority `require`, then — the stub —
`return true` unconditionally (`_requiredLevel` is never read; the
source comment says a real implementation would use an FHE
comparison). -/
def verifyIncomeThreshold (sender now : Nat) (verificationId requiredLevel : Nat)
    (s : ContractState) : Except Err Bool :=
  match validVerificationCheck now s verificationId with
  | some e => Except.error e
  | none =>
    if (s.verifications verificationId).verifiedUser = sender
        ∨ sender = s.verificationAuthority then
      Except.ok true
    else Except.error Err.unauthorized

/-- `compareIncomes` (lines 172–188): both records must pass
`validVerification`, the caller must own one of them or be the
authority; the comparison itself is stubbed to `true`. -/
def compareIncomes (sender now : Nat) (id1 id2 : Nat)
    (s : ContractState) : Except Err Bool :=
  match validVerificationCheck now s id1 with
  | some e => Except.error e
  | none =>
    match validVerificationCheck now s id2 with
    | some e => Except.error e
    | none =>
      if (s.verifications id1).verifiedUser = sender
          ∨ (s.verifications id2).verifiedUser = sender
          ∨ sender = s.verificationAuthority then
        Except.ok true
      else Except.error Err.unauthorized

/-- The six fields returned by `getVerificationInfo` (lines 194–201). -/
structure VerificationInfo where
  isVerified : Bool
  isActive : Bool
  verificationTime : Nat
  expiryTime : Nat
  employerHash : String
  verifiedUser : Nat
  deriving DecidableEq, Repr

/-- `getVerificationInfo` (lines 190–217): `validVerification` modifier,
owner-or-authority `require`, then the record's metadata. -/
def getVerificationInfo (sender now : Nat) (verificationId : Nat)
    (s : ContractState) : Except Err VerificationInfo :=
  match validVerificationCheck now s verificationId with
  | some e => Except.error e
  | none =>
    if (s.verifications verificationId).verifiedUser = sender
        ∨ sender = s.verificationAuthority then
      Except.ok
        { isVerified := (s.verifications verificationId).isVerified
          isActive := (s.verifications verificationId).isActive
          verificationTime := (s.verifications verificationId).verificationTime
          expiryTime := (s.verifications verificationId).expiryTime
          employerHash := (s.verifications verificationId).employerHash
          verifiedUser := (s.verifications verificationId).verifiedUser }
    else Except.error Err.unauthorized

/-- `getUserVerifications` (lines 219–225). -/
def getUserVerifications (sender : Nat) (user : Nat)
    (s : ContractState) : Except Err (List Nat) :=
  if user = sender ∨ sender = s.verificationAuthority then
    Except.ok (s.userVerifications user)
  else Except.error Err.unauthorized

/-- `getUserRequests` (lines 227–233). -/
def getUserRequests (sender : Nat) (user : Nat)
    (s : ContractState) : Except Err (List Nat) :=
  if user = sender ∨ sender = s.verificationAuthority then
    Except.ok (s.userRequests user)
  else Except.error Err.unauthorized

/-- The four fields returned by `getRequestInfo` (lines 238–243). -/
structure RequestInfo where
  requester : Nat
  isPending : Bool
  requestTime : Nat
  documentHash : String
  deriving DecidableEq, Repr

/-- `getRequestInfo` (lines 235–258). -/
def getRequestInfo (sender : Nat) (requestId : Nat)
    (s : ContractState) : Except Err RequestInfo :=
  if ¬ requestId < s.requestCounter then Except.error Err.notFound
  else if (s.verificationRequests requestId).requester = sender
      ∨ sender = s.verificationAuthority then
    Except.ok
      { requester := (s.verificationRequests requestId).requester
        isPending := (s.verificationRequests requestId).isPending
        requestTime := (s.verificationRequests requestId).requestTime
        documentHash := (s.verificationRequests requestId).documentHash }
  else Except.error Err.unauthorized

/-- `deactivateVerification` (lines 260–272): `validVerification`
modifier, owner-or-authority `require`, then `isActive := false` and
the `VerificationExpired` event. -/
def deactivateVerification (sender now : Nat) (verificationId : Nat)
    (s : ContractState) : ContractState × Except Err Unit :=
  match validVerificationCheck now s verificationId with
  | some e => (s, Except.error e)
  | none =>
    if (s.verifications verificationId).verifiedUser = sender
        ∨ sender = s.verificationAuthority then
      ({ s with
          verifications := fun i =>
            if i = verificationId then { s.verifications i with isActive := false }
            else s.verifications i
          eventLog := s.eventLog
            ++ [Event.verificationExpired verificationId
                  (s.verifications verificationId).verifiedUser] },
        Except.ok ())
    else (s, Except.error Err.unauthorized)

/-- `updateVerificationAuthority` (lines 274–277). -/
def updateVerificationAuthority (sender : Nat) (newAuthority : Nat)
    (s : ContractState) : ContractState × Except Err Unit :=
  if ¬ sender = s.verificationAuthority then (s, Except.error Err.unauthorized)
  else if newAuthority = 0 then (s, Except.error Err.invalidInput)
  else ({ s with verificationAuthority := newAuthority }, Except.ok ())

/-- `isVerificationValid` (lines 279–288): never reverts; `false` for an
ID outside the allocated range, otherwise
`isActive && isVerified && now ≤ expiryTime`. -/
def isVerificationValid (now : Nat) (s : ContractState) (verificationId : Nat) : Bool :=
  if verificationId ≥ s.verificationCount then false
  else (s.verifications verificationId).isActive
    && (s.verifications verificationId).isVerified
    && decide (now ≤ (s.verifications verificationId).expiryTime)

/-- `getActiveVerificationCount` (lines 290–300): linear scan. -/
def getActiveVerificationCount (now : Nat) (s : ContractState) : Nat :=
  (List.range s.verificationCount).countP fun i =>
    (s.verifications i).isActive && (s.verifications i).isVerified
      && decide (now ≤ (s.verifications i).expiryTime)

/-- `getPendingRequestCount` (lines 302–310): linear scan. -/
def getPendingRequestCount (s : ContractState) : Nat :=
  (List.range s.requestCounter).countP fun i => (s.verificationRequests i).isPending

/-- The auto-generated public getter of `mapping(uint256 =>
IncomeVerification) public verifications` (line 34): it takes any
caller and performs no authorization check. -/
def verificationsGetter (sender : Nat) (s : ContractState)
    (verificationId : Nat) : IncomeVerification :=
  s.verifications verificationId

/-- The auto-generated public getter of `mapping(uint256 =>
VerificationRequest) public verificationRequests` (line 36): no
authorization check. -/
def verificationRequestsGetter (sender : Nat) (s : ContractState)
    (requestId : Nat) : VerificationRequest :=
  s.verificationRequests requestId

/-- The auto-generated public getter of `mapping(address => uint256[])
public userVerifications` (line 35): takes an index into the array,
reverts (out-of-range) past the end, no authorization check. -/
def userVerificationsGetter (sender : Nat) (s : ContractState)
    (user index : Nat) : Except Err Nat :=
  match (s.userVerifications user).get? index with
  | some v => Except.ok v
  | none => Except.error Err.notFound

/-- The auto-generated public getter of `mapping(address => uint256[])
public userRequests` (line 37): same shape. -/
def userRequestsGetter (sender : Nat) (s : ContractState)
    (user index : Nat) : Except Err Nat :=
  match (s.userRequests user).get? index with
  | some v => Except.ok v
  | none => Except.error Err.notFound

/-- The return value of an external call, one constructor per ABI
return shape the contract uses. -/
inductive RetVal where
  | unitRet
  | boolRet (b : Bool)
  | natRet (n : Nat)
  | listRet (l : List Nat)
  | infoRet (v : VerificationInfo)
  | reqRet (r : RequestInfo)
  | recRet (r : IncomeVerification)
  | vreqRet (r : VerificationRequest)
  deriving DecidableEq, Repr

/-- One external call to the contract: every external function,
including the auto-generated getters of the public state variables and
mappings. -/
inductive Call where
  | requestIncomeVerification (incomeLevel employmentMonths : Nat) (documentHash : String)
  | processVerificationRequest (requestId : Nat) (employerHash : String) (isApproved : Bool)
  | verifyIncomeThreshold (verificationId requiredLevel : Nat)
  | compareIncomes (id1 id2 : Nat)
  | getVerificationInfo (verificationId : Nat)
  | getUserVerifications (user : Nat)
  | getUserRequests (user : Nat)
  | getRequestInfo (requestId : Nat)
  | deactivateVerification (verificationId : Nat)
  | updateVerificationAuthority (newAuthority : Nat)
  | isVerificationValid (verificationId : Nat)
  | getActiveVerificationCount
  | getPendingRequestCount
  | verificationAuthority
  | verificationCount
  | requestCounter
  | verificationsGetter (verificationId : Nat)
  | verificationRequestsGetter (requestId : Nat)
  | userVerificationsGetter (user index : Nat)
  | userRequestsGetter (user index : Nat)

/-- Execute one external call from `sender` at time `now`: dispatch to
the function's embedding.  View functions leave the state unchanged. -/
def exec (sender now : Nat) (c : Call) (s : ContractState) :
    ContractState × Except Err RetVal :=
  match c with
  | Call.requestIncomeVerification a b d =>
    let r := requestIncomeVerification sender now a b d s
    (r.1, r.2.map fun _ => RetVal.unitRet)
  | Call.processVerificationRequest rid eh ap =>
    let r := processVerificationRequest sender now rid eh ap s
    (r.1, r.2.map fun _ => RetVal.unitRet)
  | Call.verifyIncomeThreshold vid lvl =>
    (s, (verifyIncomeThreshold sender now vid lvl s).map RetVal.boolRet)
  | Call.compareIncomes i1 i2 =>
    (s, (compareIncomes sender now i1 i2 s).map RetVal.boolRet)
  | Call.getVerificationInfo vid =>
    (s, (getVerificationInfo sender now vid s).map RetVal.infoRet)
  | Call.getUserVerifications u =>
    (s, (getUserVerifications sender u s).map RetVal.listRet)
  | Call.getUserRequests u =>
    (s, (getUserRequests sender u s).map RetVal.listRet)
  | Call.getRequestInfo rid =>
    (s, (getRequestInfo sender rid s).map RetVal.reqRet)
  | Call.deactivateVerification vid =>
    let r := deactivateVerification sender now vid s
    (r.1, r.2.map fun _ => RetVal.unitRet)
  | Call.updateVerificationAuthority a =>
    let r := updateVerificationAuthority sender a s
    (r.1, r.2.map fun _ => RetVal.unitRet)
  | Call.isVerificationValid vid =>
    (s, Except.ok (RetVal.boolRet (isVerificationValid now s vid)))
  | Call.getActiveVerificationCount =>
    (s, Except.ok (RetVal.natRet (getActiveVerificationCount now s)))
  | Call.getPendingRequestCount =>
    (s, Except.ok (RetVal.natRet (getPendingRequestCount s)))
  | Call.verificationAuthority =>
    (s, Except.ok (RetVal.natRet s.verificationAuthority))
  | Call.verificationCount =>
    (s, Except.ok (RetVal.natRet s.verificationCount))
  | Call.requestCounter =>
    (s, Except.ok (RetVal.natRet s.requestCounter))
  | Call.verificationsGetter vid =>
    (s, Except.ok (RetVal.recRet (verificationsGetter sender s vid)))
  | Call.verificationRequestsGetter rid =>
    (s, Except.ok (RetVal.vreqRet (verificationRequestsGetter sender s rid)))
  | Call.userVerificationsGetter u i =>
    (s, (userVerificationsGetter sender s u i).map RetVal.natRet)
  | Call.userRequestsGetter u i =>
    (s, (userRequestsGetter sender s u i).map RetVal.natRet)

/-- One transition of the registry: some caller, at some time, makes
some external call (successful or not). -/
def StepR (s t : ContractState) : Prop :=
  ∃ sender now c, (exec sender now c s).1 = t

/-- Reachability in any number of external calls. -/
def RegReachable : ContractState → ContractState → Prop :=
  Relation.ReflTransGen StepR

/-- The state right after the constructor (lines 77–81), deployed by
`deployer`: that account is the authority, both counters are zero, all
mappings empty. -/
def initialState (deployer : Nat) : ContractState :=
  { verificationAuthority := deployer
    verificationCount := 0
    verifications := fun _ => defaultVerification
    userVerifications := fun _ => []
    verificationRequests := fun _ => defaultRequest
    userRequests := fun _ => []
    requestCounter := 0
    eventLog := [] }

/-- A concrete record owned by user `2` with stored income level `1`,
verified and active, created at time `100`. -/
def demoRecord : IncomeVerification :=
  { encryptedIncomeLevel := 1
    encryptedEmploymentMonths := 12
    isVerified := true
    isActive := true
    verificationTime := 100
    expiryTime := 100 + VERIFICATION_VALIDITY_PERIOD
    employerHash := "emp"
    verifiedUser := 2 }

/-- A concrete state: authority `1`, one valid record (`demoRecord`)
with ID `0`. -/
def demoState : ContractState :=
  { initialState 1 with
      verificationCount := 1
      verifications := fun i => if i = 0 then demoRecord else defaultVerification
      userVerifications := fun u => if u = 2 then [0] else [] }

/-- Like `demoState` but record `0` has already been deactivated. -/
def demoInactiveState : ContractState :=
  { initialState 1 with
      verificationCount := 1
      verifications := fun i =>
        if i = 0 then { demoRecord with isActive := false } else defaultVerification
      userVerifications := fun u => if u = 2 then [0] else [] }

/-- A concrete state with one pending request (ID `0`) from user `2`,
authority `1`. -/
def demoPendingState : ContractState :=
  { initialState 1 with
      requestCounter := 1
      verificationRequests := fun i =>
        if i = 0 then
          { requester := 2
            claimedIncomeLevel := 42
            employmentDuration := 48
            isPending := true
            requestTime := 50
            documentHash := "Qm" }
        else defaultRequest
      userRequests := fun u => if u = 2 then [0] else [] }

/-- C6: for every verification ID and every current time,
`isVerificationValid` equals `isActive ∧ isVerified ∧ now ≤ expiryTime`
(and is false for an ID outside the allocated range); in particular it
is false whenever `isActive` is false regardless of time, and false
whenever `now > expiryTime` regardless of `isActive`. -/
theorem isVerificationValid_characterization :
    ∀ (now : Nat) (s : ContractState) (vid : Nat),
      isVerificationValid now s vid = true ↔
        (vid < s.verificationCount ∧
         (s.verifications vid).isActive = true ∧
         (s.verifications vid).isVerified = true ∧
         now ≤ (s.verifications vid).expiryTime) := by
  intro now s vid
  unfold isVerificationValid
  by_cases h : vid ≥ s.verificationCount
  · simp [h]
  · simp [h, Nat.lt_of_not_le h]
    tauto

/-- C3: the auto-generated getters of the public mappings
`verifications`, `verificationRequests`, `userVerifications`, and
`userRequests` return the stored data with no authorization check: the
result is independent of the caller, it is the stored struct (all
fields, including `employerHash`, `verifiedUser`, `requester`,
`requestTime`, `documentHash`), and for the per-user ID lists the
stored element at each in-range index — so the `Unauthorized` gating
of the named query operations can be bypassed by reading these mappings
directly. -/
theorem publicGetters_no_authorization :
    ∀ (sender sender' vid rid u i v : Nat) (s : ContractState),
      verificationsGetter sender s vid = s.verifications vid ∧
      verificationRequestsGetter sender s rid = s.verificationRequests rid ∧
      verificationsGetter sender s vid = verificationsGetter sender' s vid ∧
      verificationRequestsGetter sender s rid = verificationRequestsGetter sender' s rid ∧
      userVerificationsGetter sender s u i = userVerificationsGetter sender' s u i ∧
      userRequestsGetter sender s u i = userRequestsGetter sender' s u i ∧
      (userVerificationsGetter sender s u i = Except.ok v ↔
        (s.userVerifications u).get? i = some v) ∧
      (userRequestsGetter sender s u i = Except.ok v ↔
        (s.userRequests u).get? i = some v) := by
  intro sender sender' vid rid u i v s
  refine ⟨rfl, rfl, rfl, rfl, rfl, rfl, ?_, ?_⟩
  · unfold userVerificationsGetter
    cases h : (s.userVerifications u).get? i <;> simp [h]
  · unfold userRequestsGetter
    cases h : (s.userRequests u).get? i <;> simp [h]

/-- C1 counterexample: `demoState`'s record `0` is currently valid, its
owner `2` calls `verifyIncomeThreshold` with `requiredLevel = 200`
while the stored income level is `1`; the call returns `true` even
though the stored level does not exceed the required level — the
comparison is a stub, so "true iff the stored income level exceeds
`requiredLevel`" fails. -/
theorem verifyIncomeThreshold_not_a_comparison :
    verifyIncomeThreshold 2 100 0 200 demoState = Except.ok true ∧
    ¬ (demoState.verifications 0).encryptedIncomeLevel > 200 := by
  constructor
  · rfl
  · decide

/-- C1 amended: for every currently valid record (ID in range, active,
unexpired) and every caller that is the record's owner or the
authority, `verifyIncomeThreshold` returns `Except.ok true`
unconditionally, whatever the stored income level and whatever
`requiredLevel` — the encrypted comparison is stubbed. -/
theorem verifyIncomeThreshold_always_true
    (sender now vid requiredLevel : Nat) (s : ContractState)
    (hv : vid < s.verificationCount)
    (ha : (s.verifications vid).isActive = true)
    (he : now ≤ (s.verifications vid).expiryTime)
    (hauth : (s.verifications vid).verifiedUser = sender ∨ sender = s.verificationAuthority) :
    verifyIncomeThreshold sender now vid requiredLevel s = Except.ok true := by
  unfold verifyIncomeThreshold validVerificationCheck
  simp [hv, ha, he, hauth]

/-- Witness for `verifyIncomeThreshold_always_true` at `demoState`,
caller `2` (the owner), time `100`, required level `200`. -/
theorem verifyIncomeThreshold_always_true_witness :
    verifyIncomeThreshold 2 100 0 200 demoState = Except.ok true :=
  verifyIncomeThreshold_always_true 2 100 0 200 demoState (by decide) (by decide)
    (by decide) (Or.inl (by decide))

/-- C5: a successful `processVerificationRequest` with `approve = true`
creates a record at the current `verificationCount` with
`isVerified = true`, `isActive = true`, `verificationTime = now`,
`expiryTime = now + 365 days` exactly (so `expiryTime =
verificationTime + 365 days`), and increments the record counter; with
`approve = false` no record is created and `verificationCount` and the
`verifications` mapping are unchanged.  `VERIFICATION_VALIDITY_PERIOD`
is exactly `365 * 24 * 60 * 60` seconds. -/
theorem processVerificationRequest_approval_rejection
    (sender now rid : Nat) (eh : String) (approve : Bool) (s s' : ContractState) (r : Unit)
    (h : processVerificationRequest sender now rid eh approve s = (s', Except.ok r)) :
    (approve = true →
      (s'.verifications s.verificationCount).isVerified = true ∧
      (s'.verifications s.verificationCount).isActive = true ∧
      (s'.verifications s.verificationCount).verificationTime = now ∧
      (s'.verifications s.verificationCount).expiryTime = now + VERIFICATION_VALIDITY_PERIOD ∧
      (s'.verifications s.verificationCount).expiryTime
        = (s'.verifications s.verificationCount).verificationTime
            + VERIFICATION_VALIDITY_PERIOD ∧
      s'.verificationCount = s.verificationCount + 1) ∧
    (approve = false →
      s'.verificationCount = s.verificationCount ∧
      s'.verifications = s.verifications) ∧
    VERIFICATION_VALIDITY_PERIOD = 365 * 24 * 60 * 60 := by
  unfold processVerificationRequest at h
  split at h
  · simp at h
  split at h
  · simp at h
  split at h
  · simp at h
  split at h
  · simp at h
  split at h
  · -- approval branch
    rw [Prod.mk.injEq] at h
    obtain ⟨hs, -⟩ := h
    subst hs
    refine ⟨fun _ => ?_, fun hfalse => ?_, rfl⟩
    · simp
    · simp_all
  · -- rejection branch
    rw [Prod.mk.injEq] at h
    obtain ⟨hs, -⟩ := h
    subst hs
    refine ⟨fun htrue => ?_, fun _ => ⟨rfl, rfl⟩, rfl⟩
    simp_all

/-- Witness for `processVerificationRequest_approval_rejection`: the
authority `1` approves pending request `0` of `demoPendingState` at
time `100`; the created record `0` is verified. -/
theorem processVerificationRequest_approval_rejection_witness :
    ((processVerificationRequest 1 100 0 "emp" true demoPendingState).1.verifications
        0).isVerified = true :=
  ((processVerificationRequest_approval_rejection 1 100 0 "emp" true demoPendingState
      (processVerificationRequest 1 100 0 "emp" true demoPendingState).1 () rfl).1 rfl).1

/-- A failing `requestIncomeVerification` leaves the state unchanged:
all its checks precede its first mutation. -/
theorem requestIncomeVerification_fail_eq (sender now a b : Nat) (d : String)
    (s s' : ContractState) (e : Err)
    (h : requestIncomeVerification sender now a b d s = (s', Except.error e)) :
    s' = s := by
  unfold requestIncomeVerification at h
  split at h
  · exact ((Prod.mk.injEq ..).mp h).1.symm
  split at h
  · exact ((Prod.mk.injEq ..).mp h).1.symm
  split at h
  · exact ((Prod.mk.injEq ..).mp h).1.symm
  · simp at h

/-- A failing `processVerificationRequest` leaves the state unchanged:
all its checks precede its first mutation. -/
theorem processVerificationRequest_fail_eq (sender now rid : Nat) (eh : String)
    (ap : Bool) (s s' : ContractState) (e : Err)
    (h : processVerificationRequest sender now rid eh ap s = (s', Except.error e)) :
    s' = s := by
  unfold processVerificationRequest at h
  split at h
  · exact ((Prod.mk.injEq ..).mp h).1.symm
  split at h
  · exact ((Prod.mk.injEq ..).mp h).1.symm
  split at h
  · exact ((Prod.mk.injEq ..).mp h).1.symm
  split at h
  · exact ((Prod.mk.injEq ..).mp h).1.symm
  split at h
  · simp at h
  · simp at h

/-- A failing `deactivateVerification` leaves the state unchanged:
all its checks precede its mutation. -/
theorem deactivateVerification_fail_eq (sender now vid : Nat)
    (s s' : ContractState) (e : Err)
    (h : deactivateVerification sender now vid s = (s', Except.error e)) :
    s' = s := by
  unfold deactivateVerification at h
  split at h
  · exact ((Prod.mk.injEq ..).mp h).1.symm
  split at h
  · simp at h
  · exact ((Prod.mk.injEq ..).mp h).1.symm

/-- A failing `updateVerificationAuthority` leaves the state
unchanged. -/
theorem updateVerificationAuthority_fail_eq (sender a : Nat)
    (s s' : ContractState) (e : Err)
    (h : updateVerificationAuthority sender a s = (s', Except.error e)) :
    s' = s := by
  unfold updateVerificationAuthority at h
  split at h
  · exact ((Prod.mk.injEq ..).mp h).1.symm
  split at h
  · exact ((Prod.mk.injEq ..).mp h).1.symm
  · simp at h

/-- C7: for every external call, every caller, every time and every
starting state, if the call fails with any error then the post-state
equals the pre-state — every precondition check happens before any
mutation, so operations are all-or-nothing (the embedding applies
mutations in source statement order and does not roll back, so this is
a property of the code's check/mutation ordering, not of the model). -/
theorem exec_error_state_unchanged (sender now : Nat) (c : Call)
    (s s' : ContractState) (e : Err)
    (h : exec sender now c s = (s', Except.error e)) :
    s' = s := by
  cases c <;> simp only [exec] at h
  case requestIncomeVerification a b d =>
    have h1 := congrArg Prod.fst h
    have h2 := congrArg Prod.snd h
    simp only at h1 h2
    cases hr : (requestIncomeVerification sender now a b d s).2 with
    | ok v => rw [hr] at h2; simp [Except.map] at h2
    | error e' =>
      rw [hr] at h2
      simp [Except.map] at h2
      subst h1
      exact requestIncomeVerification_fail_eq sender now a b d s _ e'
        (by rw [← hr])
  case processVerificationRequest rid eh ap =>
    have h1 := congrArg Prod.fst h
    have h2 := congrArg Prod.snd h
    simp only at h1 h2
    cases hr : (processVerificationRequest sender now rid eh ap s).2 with
    | ok v => rw [hr] at h2; simp [Except.map] at h2
    | error e' =>
      rw [hr] at h2
      simp [Except.map] at h2
      subst h1
      exact processVerificationRequest_fail_eq sender now rid eh ap s _ e'
        (by rw [← hr])
  case deactivateVerification vid =>
    have h1 := congrArg Prod.fst h
    have h2 := congrArg Prod.snd h
    simp only at h1 h2
    cases hr : (deactivateVerification sender now vid s).2 with
    | ok v => rw [hr] at h2; simp [Except.map] at h2
    | error e' =>
      rw [hr] at h2
      simp [Except.map] at h2
      subst h1
      exact deactivateVerification_fail_eq sender now vid s _ e'
        (by rw [← hr])
  case updateVerificationAuthority a =>
    have h1 := congrArg Prod.fst h
    have h2 := congrArg Prod.snd h
    simp only at h1 h2
    cases hr : (updateVerificationAuthority sender a s).2 with
    | ok v => rw [hr] at h2; simp [Except.map] at h2
    | error e' =>
      rw [hr] at h2
      simp [Except.map] at h2
      subst h1
      exact updateVerificationAuthority_fail_eq sender a s _ e'
        (by rw [← hr])
  all_goals exact ((Prod.mk.injEq ..).mp h).1.symm

/-- Invariant used for C4: request `rid` has been allocated and is no
longer pending. -/
def RequestSettled (rid : Nat) (s : ContractState) : Prop :=
  rid < s.requestCounter ∧ (s.verificationRequests rid).isPending = false

/-- Invariant used for C10: record `vid` has been allocated and is
inactive. -/
def RecordInactive (vid : Nat) (s : ContractState) : Prop :=
  vid < s.verificationCount ∧ (s.verifications vid).isActive = false

/-- No external call re-opens a settled request: `RequestSettled` is
preserved by every transition (new requests are stored at the fresh ID
`requestCounter`, which is above any allocated ID, and processing only
ever clears `isPending`). -/
theorem stepR_preserves_RequestSettled (rid : Nat) (s t : ContractState)
    (hst : StepR s t) (hinv : RequestSettled rid s) : RequestSettled rid t := by
  obtain ⟨hlt, hpend⟩ := hinv
  obtain ⟨sender, now, c, hc⟩ := hst
  subst hc
  cases c <;> simp only [exec]
  case requestIncomeVerification a b d =>
    show RequestSettled rid (requestIncomeVerification sender now a b d s).1
    unfold requestIncomeVerification RequestSettled
    split
    · exact ⟨hlt, hpend⟩
    split
    · exact ⟨hlt, hpend⟩
    split
    · exact ⟨hlt, hpend⟩
    · refine ⟨Nat.lt_succ_of_lt hlt, ?_⟩
      simp [Nat.ne_of_lt hlt, hpend]
  case processVerificationRequest rid' eh ap =>
    show RequestSettled rid (processVerificationRequest sender now rid' eh ap s).1
    unfold processVerificationRequest RequestSettled
    split
    · exact ⟨hlt, hpend⟩
    split
    · exact ⟨hlt, hpend⟩
    split
    · exact ⟨hlt, hpend⟩
    split
    · exact ⟨hlt, hpend⟩
    split
    · refine ⟨hlt, ?_⟩
      by_cases hr : rid = rid' <;> simp [hr, hpend]
    · refine ⟨hlt, ?_⟩
      by_cases hr : rid = rid' <;> simp [hr, hpend]
  case deactivateVerification vid =>
    show RequestSettled rid (deactivateVerification sender now vid s).1
    unfold deactivateVerification RequestSettled
    split
    · exact ⟨hlt, hpend⟩
    split
    · exact ⟨hlt, hpend⟩
    · exact ⟨hlt, hpend⟩
  case updateVerificationAuthority a =>
    show RequestSettled rid (updateVerificationAuthority sender a s).1
    unfold updateVerificationAuthority RequestSettled
    split
    · exact ⟨hlt, hpend⟩
    split
    · exact ⟨hlt, hpend⟩
    · exact ⟨hlt, hpend⟩
  all_goals exact ⟨hlt, hpend⟩

/-- No external call reactivates a deactivated record: `RecordInactive`
is preserved by every transition (approval creates records only at the
fresh ID `verificationCount`, above any allocated ID, and deactivation
only ever clears `isActive`). -/
theorem stepR_preserves_RecordInactive (vid : Nat) (s t : ContractState)
    (hst : StepR s t) (hinv : RecordInactive vid s) : RecordInactive vid t := by
  obtain ⟨hlt, hact⟩ := hinv
  obtain ⟨sender, now, c, hc⟩ := hst
  subst hc
  cases c <;> simp only [exec]
  case requestIncomeVerification a b d =>
    show RecordInactive vid (requestIncomeVerification sender now a b d s).1
    unfold requestIncomeVerification RecordInactive
    split
    · exact ⟨hlt, hact⟩
    split
    · exact ⟨hlt, hact⟩
    split
    · exact ⟨hlt, hact⟩
    · exact ⟨hlt, hact⟩
  case processVerificationRequest rid' eh ap =>
    show RecordInactive vid (processVerificationRequest sender now rid' eh ap s).1
    unfold processVerificationRequest RecordInactive
    split
    · exact ⟨hlt, hact⟩
    split
    · exact ⟨hlt, hact⟩
    split
    · exact ⟨hlt, hact⟩
    split
    · exact ⟨hlt, hact⟩
    split
    · refine ⟨Nat.lt_succ_of_lt hlt, ?_⟩
      simp [Nat.ne_of_lt hlt, hact]
    · exact ⟨hlt, hact⟩
  case deactivateVerification vid' =>
    show RecordInactive vid (deactivateVerification sender now vid' s).1
    unfold deactivateVerification RecordInactive
    split
    · exact ⟨hlt, hact⟩
    split
    · refine ⟨hlt, ?_⟩
      by_cases hv : vid = vid' <;> simp [hv, hact]
    · exact ⟨hlt, hact⟩
  case updateVerificationAuthority a =>
    show RecordInactive vid (updateVerificationAuthority sender a s).1
    unfold updateVerificationAuthority RecordInactive
    split
    · exact ⟨hlt, hact⟩
    split
    · exact ⟨hlt, hact⟩
    · exact ⟨hlt, hact⟩
  all_goals exact ⟨hlt, hact⟩

/-- `RequestSettled` holds along every reachable path. -/
theorem regReachable_preserves_RequestSettled (rid : Nat) (s t : ContractState)
    (hr : RegReachable s t) (hinv : RequestSettled rid s) : RequestSettled rid t := by
  induction hr with
  | refl => exact hinv
  | tail _ hstep ih => exact stepR_preserves_RequestSettled rid _ _ hstep ih

/-- `RecordInactive` holds along every reachable path. -/
theorem regReachable_preserves_RecordInactive (vid : Nat) (s t : ContractState)
    (hr : RegReachable s t) (hinv : RecordInactive vid s) : RecordInactive vid t := by
  induction hr with
  | refl => exact hinv
  | tail _ hstep ih => exact stepR_preserves_RecordInactive vid _ _ hstep ih

/-- C4: `processVerificationRequest` succeeds at most once per request
ID — the first successful call (approval or rejection) sets `isPending`
to false, and in every state reachable from then on, a call by the
(then-current) authority on the same ID fails with `NotPending` and
changes no state. -/
theorem processVerificationRequest_at_most_once
    (sender now rid : Nat) (eh : String) (ap : Bool) (s s' : ContractState) (r : Unit)
    (h : processVerificationRequest sender now rid eh ap s = (s', Except.ok r)) :
    (s'.verificationRequests rid).isPending = false ∧
    ∀ t, RegReachable s' t → ∀ sender' now' : Nat, ∀ eh' : String, ∀ ap' : Bool,
      sender' = t.verificationAuthority →
      processVerificationRequest sender' now' rid eh' ap' t
        = (t, Except.error Err.notPending) := by
  have hsettled : RequestSettled rid s' := by
    unfold processVerificationRequest at h
    split at h
    · simp at h
    next hauth =>
    split at h
    · simp at h
    next hrid =>
    split at h
    · simp at h
    split at h
    · simp at h
    split at h
    · rw [Prod.mk.injEq] at h
      obtain ⟨hs, -⟩ := h
      subst hs
      exact ⟨by simpa using hrid, by simp⟩
    · rw [Prod.mk.injEq] at h
      obtain ⟨hs, -⟩ := h
      subst hs
      exact ⟨by simpa using hrid, by simp⟩
  refine ⟨hsettled.2, ?_⟩
  intro t hreach sender' now' eh' ap' hauth'
  obtain ⟨hlt, hpend⟩ := regReachable_preserves_RequestSettled rid s' t hreach hsettled
  unfold processVerificationRequest
  simp [hauth', hlt, hpend]

/-- Witness for `processVerificationRequest_at_most_once`: the
authority `1` rejects pending request `0` of `demoPendingState`; the
immediate re-processing attempt by the authority fails with
`NotPending` and leaves the state unchanged. -/
theorem processVerificationRequest_at_most_once_witness :
    processVerificationRequest 1 101 0 "emp2" true
        (processVerificationRequest 1 100 0 "emp" false demoPendingState).1
      = ((processVerificationRequest 1 100 0 "emp" false demoPendingState).1,
          Except.error Err.notPending) :=
  (processVerificationRequest_at_most_once 1 100 0 "emp" false demoPendingState
      (processVerificationRequest 1 100 0 "emp" false demoPendingState).1 () rfl).2
    _ Relation.ReflTransGen.refl 1 101 "emp2" true rfl

/-- C10: a record's `isActive` flag never returns to `true`: if an
allocated record is inactive, it stays inactive (and allocated) in
every reachable later state, whatever sequence of external calls is
made. -/
theorem isActive_never_reactivated (vid : Nat) (s t : ContractState)
    (hv : vid < s.verificationCount)
    (hi : (s.verifications vid).isActive = false)
    (ht : RegReachable s t) :
    (t.verifications vid).isActive = false :=
  (regReachable_preserves_RecordInactive vid s t ht ⟨hv, hi⟩).2

/-- Witness for `isActive_never_reactivated` at `demoInactiveState`
(record `0` deactivated), with the empty reachable path. -/
theorem isActive_never_reactivated_witness :
    ((demoInactiveState).verifications 0).isActive = false :=
  isActive_never_reactivated 0 demoInactiveState demoInactiveState
    (by decide) (by decide) Relation.ReflTransGen.refl

/-- The `validVerification` modifier only ever fails with `NotFound`,
`NotActive` or `Expired`. -/
theorem validVerificationCheck_errors (now vid : Nat) (s : ContractState) (e : Err)
    (h : validVerificationCheck now s vid = some e) :
    e = Err.notFound ∨ e = Err.notActive ∨ e = Err.expired := by
  unfold validVerificationCheck at h
  split at h
  · exact Or.inl (Option.some.inj h).symm
  split at h
  · exact Or.inr (Or.inl (Option.some.inj h).symm)
  split at h
  · exact Or.inr (Or.inr (Option.some.inj h).symm)
  · exact absurd h (by simp)

/-- C2 counterexample: in the freshly deployed state (authority `1`,
no records), caller `5` is neither the authority nor record `0`'s
owner, yet `verifyIncomeThreshold 0` fails with `NotFound`, not
`Unauthorized` — the validity modifier runs before the authorization
check, so a non-owner, non-authority caller does not always fail with
`Unauthorized`. -/
theorem unauthorizedCaller_notFound_cex :
    (5 : Nat) ≠ ((initialState 1).verifications 0).verifiedUser ∧
    (5 : Nat) ≠ (initialState 1).verificationAuthority ∧
    verifyIncomeThreshold 5 100 0 200 (initialState 1) = Except.error Err.notFound ∧
    Err.notFound ≠ Err.unauthorized := by
  refine ⟨by decide, by decide, ?_, by decide⟩
  rfl

/-- C2 amended: a caller that is neither the authority nor the
user/owner always fails and obtains no data from `getUserVerifications`,
`getUserRequests`, `getVerificationInfo`, `verifyIncomeThreshold`, and
`deactivateVerification`; the two list operations always fail with
`Unauthorized`, and the three record operations fail with
`Unauthorized` when the record passes the validity checks and with that
validity error (`NotFound`, `NotActive`, or `Expired`) otherwise.
(`deactivateVerification` also leaves the state unchanged.) -/
theorem unauthorized_queries_fail
    (sender now user vid requiredLevel : Nat) (s : ContractState)
    (hna : sender ≠ s.verificationAuthority)
    (hnu : sender ≠ user)
    (hno : sender ≠ (s.verifications vid).verifiedUser) :
    getUserVerifications sender user s = Except.error Err.unauthorized ∧
    getUserRequests sender user s = Except.error Err.unauthorized ∧
    (validVerificationCheck now s vid = none →
      getVerificationInfo sender now vid s = Except.error Err.unauthorized ∧
      verifyIncomeThreshold sender now vid requiredLevel s
        = Except.error Err.unauthorized ∧
      deactivateVerification sender now vid s = (s, Except.error Err.unauthorized)) ∧
    (∀ e, validVerificationCheck now s vid = some e →
      (e = Err.notFound ∨ e = Err.notActive ∨ e = Err.expired) ∧
      getVerificationInfo sender now vid s = Except.error e ∧
      verifyIncomeThreshold sender now vid requiredLevel s = Except.error e ∧
      deactivateVerification sender now vid s = (s, Except.error e)) := by
  have hnu' : ¬ user = sender := fun hh => hnu hh.symm
  have hno' : ¬ (s.verifications vid).verifiedUser = sender := fun hh => hno hh.symm
  refine ⟨?_, ?_, ?_, ?_⟩
  · unfold getUserVerifications
    simp [hnu', hna]
  · unfold getUserRequests
    simp [hnu', hna]
  · intro hnone
    unfold getVerificationInfo verifyIncomeThreshold deactivateVerification
    rw [hnone]
    simp [hno', hna]
  · intro e hsome
    refine ⟨validVerificationCheck_errors now vid s e hsome, ?_, ?_, ?_⟩
    · unfold getVerificationInfo
      rw [hsome]
    · unfold verifyIncomeThreshold
      rw [hsome]
    · unfold deactivateVerification
      rw [hsome]

/-- Witness for `unauthorized_queries_fail`: stranger `5` against
`demoState` (authority `1`, record `0` owned by `2`). -/
theorem unauthorized_queries_fail_witness :
    getUserVerifications 5 2 demoState = Except.error Err.unauthorized :=
  (unauthorized_queries_fail 5 100 2 0 200 demoState (by decide) (by decide)
    (by decide)).1

/-- C9 counterexample: record `0` of `demoInactiveState` is allocated
but already deactivated; its owner `2` calls `deactivateVerification`
and the call fails with `NotActive` — an error that is neither
`Unauthorized` nor `NotFound`, so those two are not the only failure
modes of `deactivateVerification`. -/
theorem deactivateVerification_notActive_cex :
    (deactivateVerification 2 100 0 demoInactiveState).2 = Except.error Err.notActive ∧
    Err.notActive ≠ Err.unauthorized ∧
    Err.notActive ≠ Err.notFound := by
  refine ⟨?_, by decide, by decide⟩
  rfl

/-- C9 amended: every failing call to `deactivateVerification` fails
with `NotFound` (ID out of range), `NotActive` (record already
inactive), `Expired` (past its expiry time), or `Unauthorized` (caller
neither the owner nor the authority); these are its only failure
modes. -/
theorem deactivateVerification_failure_modes (sender now vid : Nat)
    (s s' : ContractState) (e : Err)
    (h : deactivateVerification sender now vid s = (s', Except.error e)) :
    e = Err.notFound ∨ e = Err.notActive ∨ e = Err.expired ∨ e = Err.unauthorized := by
  unfold deactivateVerification at h
  rcases hvc : validVerificationCheck now s vid with _ | e'
  · rw [hvc] at h
    simp only [] at h
    split at h
    · simp at h
    · have he : e = Err.unauthorized := by
        have := ((Prod.mk.injEq ..).mp h).2
        simpa using this.symm
      simp [he]
  · rw [hvc] at h
    simp only [] at h
    have he : e' = e := by
      have := ((Prod.mk.injEq ..).mp h).2
      simpa using this
    subst he
    rcases validVerificationCheck_errors now vid s e' hvc with h1 | h1 | h1 <;> simp [h1]

/-- Witness for `deactivateVerification_failure_modes`: the stranger
`5` attempting to deactivate the valid record `0` of `demoState` fails
with `Unauthorized`, which is among the four failure modes. -/
theorem deactivateVerification_failure_modes_witness :
    Err.unauthorized = Err.notFound ∨ Err.unauthorized = Err.notActive ∨
    Err.unauthorized = Err.expired ∨ Err.unauthorized = Err.unauthorized :=
  deactivateVerification_failure_modes 5 100 0 demoState demoState Err.unauthorized rfl

/-- Witness for `exec_error_state_unchanged`: the stranger `5` calling
`processVerificationRequest` on the fresh state fails (with
`Unauthorized`) and the state is unchanged. -/
theorem exec_error_state_unchanged_witness :
    (exec 5 100 (Call.processVerificationRequest 0 "x" true) (initialState 1)).1
      = initialState 1 :=
  exec_error_state_unchanged 5 100 (Call.processVerificationRequest 0 "x" true)
    (initialState 1)
    (exec 5 100 (Call.processVerificationRequest 0 "x" true) (initialState 1)).1
    Err.unauthorized rfl

/-- A fresh state whose request counter already stands at `5`,
used to show the return value of `requestIncomeVerification` does not
depend on the allocated ID. -/
def demoStateB : ContractState :=
  { initialState 1 with requestCounter := 5 }

/-- C8 counterexample: the same valid submission made from two states
whose next request IDs differ (`0` vs `5`) succeeds in both and
produces the *same* return value (`Except.ok ()`, i.e. no data), while
the allocated IDs demonstrably differ — they appear only in the
`VerificationRequested` events.  So `requestIncomeVerification` does
not return the newly allocated request ID to the caller: the Solidity
function has no return value. -/
theorem requestIncomeVerification_returns_no_id :
    (requestIncomeVerification 2 100 42 48 "Qm" (initialState 1)).2 = Except.ok () ∧
    (requestIncomeVerification 2 100 42 48 "Qm" demoStateB).2 = Except.ok () ∧
    (requestIncomeVerification 2 100 42 48 "Qm" (initialState 1)).2
      = (requestIncomeVerification 2 100 42 48 "Qm" demoStateB).2 ∧
    (initialState 1).requestCounter ≠ demoStateB.requestCounter ∧
    (requestIncomeVerification 2 100 42 48 "Qm" (initialState 1)).1.eventLog
      = [Event.verificationRequested 0 2 100] ∧
    (requestIncomeVerification 2 100 42 48 "Qm" demoStateB).1.eventLog
      = [Event.verificationRequested 5 2 100] := by
  refine ⟨rfl, rfl, rfl, by decide, rfl, rfl⟩

/-- C8 amended: for every valid submission (`incomeLevel > 0`,
`employmentMonths > 0`, non-empty `documentHash`),
`requestIncomeVerification` succeeds, stores the new request under the
newly allocated ID (the current `requestCounter`) with `isPending =
true`, appends that ID to the caller's request index, increments the
counter, and emits `VerificationRequested` carrying the new ID — but
the function itself returns no value (the new ID reaches the caller
only through the event). -/
theorem requestIncomeVerification_effects
    (sender now a b : Nat) (d : String) (s : ContractState)
    (ha : a > 0) (hb : b > 0) (hd : d ≠ "") :
    (requestIncomeVerification sender now a b d s).2 = Except.ok () ∧
    (requestIncomeVerification sender now a b d s).1.verificationRequests s.requestCounter
      = { requester := sender
          claimedIncomeLevel := a
          employmentDuration := b
          isPending := true
          requestTime := now
          documentHash := d } ∧
    (requestIncomeVerification sender now a b d s).1.userRequests sender
      = s.userRequests sender ++ [s.requestCounter] ∧
    (requestIncomeVerification sender now a b d s).1.requestCounter
      = s.requestCounter + 1 ∧
    (requestIncomeVerification sender now a b d s).1.eventLog
      = s.eventLog ++ [Event.verificationRequested s.requestCounter sender now] := by
  unfold requestIncomeVerification
  simp [ha, hb, hd]

/-- Witness for `requestIncomeVerification_effects`: user `2` submits
`(42, 48, "Qm")` to the fresh state; the counter advances to `1`. -/
theorem requestIncomeVerification_effects_witness :
    (requestIncomeVerification 2 100 42 48 "Qm" (initialState 1)).1.requestCounter
      = (initialState 1).requestCounter + 1 :=
  (requestIncomeVerification_effects 2 100 42 48 "Qm" (initialState 1)
    (by decide) (by decide) (by decide)).2.2.2.1
